import Mathlib

/-!
Shallow embedding of the FAOA treasurer tool (`src/app.py`): the row
classifier (`classify_row`), the batch pipeline (junk-row drop, classification,
IGNORE drop, Stripe journal auto-rule, force-review step), the per-category
summary aggregation, and the itemized sections of the text report.

Modelling conventions:
* Monetary amounts are integers in **cents** (the Python code uses floats in
  dollars; every constant in the program is exact in cents, so `9` dollars is
  `900`, `500.0` dollars is `50000`).  An unparseable amount is `none`, which
  the code turns into `0.0` via its `try/except` (here: `Option.getD 0`).
* Case-insensitive substring matching (`"kw" in desc.lower()`) is modelled on
  `List Char` after mapping `Char.toLower`.
* A missing (NaN) `Description` cell is `none`; a present cell is `some s`.
-/

/-- Substring test: `containsSub hay pat = true` iff `pat` occurs contiguously
in `hay` (Python's `pat in hay`). -/
def containsSub (hay pat : List Char) : Bool :=
  match hay with
  | [] => pat.isEmpty
  | c :: t => pat.isPrefixOf (c :: t) || containsSub t pat

/-- Lower-cased character list of a string (Python's `desc.lower()`). -/
def lowerChars (s : String) : List Char := s.data.map Char.toLower

/-- `kw in desc` on an already lower-cased description. -/
def containsKw (d : List Char) (kw : String) : Bool := containsSub d kw.data

/-- Python's `any(x in desc for x in kws)`. -/
def anyKw (d : List Char) (kws : List String) : Bool :=
  kws.any (fun k => containsSub d k.data)

/-- `s.startswith(p)` (Python), on raw strings. -/
def strStarts (s p : String) : Bool := p.data.isPrefixOf s.data

/-- Lexicographic comparison of character lists by code point, as Python's
`<=` on strings (used by pandas when sorting by a string column). -/
def listLeb : List Char → List Char → Bool
  | [], _ => true
  | _ :: _, [] => false
  | a :: as, b :: bs =>
    if a.toNat < b.toNat then true
    else if b.toNat < a.toNat then false
    else listLeb as bs

/-- String `<=` by code points. -/
def strLeb (s t : String) : Bool := listLeb s.data t.data

/-- The `CATEGORY_LABELS` dict of `app.py`, as an association list. -/
def CATEGORY_LABELS_DICT : List (String × String) :=
  [("1", "1 - Gifts, grants, contributions received"),
   ("2", "2 - Membership fees received"),
   ("3", "3 - Gross investment income"),
   ("4", "4 - Net unrelated business income"),
   ("6", "6 - Value of services/facilities furnished by government"),
   ("7", "7 - Other revenue"),
   ("9", "9 - Gross receipts from activities related to exempt purpose"),
   ("14", "14 - Fundraising expenses"),
   ("15", "15 - Contributions, gifts, grants paid out"),
   ("16", "16 - Disbursements to/for members"),
   ("18", "18 - Other salaries and wages"),
   ("19", "19 - Interest expense"),
   ("22", "22 - Professional fees"),
   ("23", "23 - Other expenses not classified above")]

/-- Dict lookup `CATEGORY_LABELS[code]` (codes outside the registry map to
`""`; the program never looks those up). -/
def CATEGORY_LABELS (code : String) : String :=
  ((CATEGORY_LABELS_DICT.find? (fun p => p.1 == code)).map Prod.snd).getD ""

/-- The 14 codes of the registry, in the order of the source dict. -/
def REGISTRY_CODES : List String := CATEGORY_LABELS_DICT.map Prod.fst

/-- The 14 label strings of the registry. -/
def REGISTRY_LABELS : List String := REGISTRY_CODES.map CATEGORY_LABELS

def REVENUE_CODES : List String := ["1", "2", "3", "4", "6", "7", "9"]

def EXPENSE_CODES : List String := ["14", "15", "16", "18", "19", "22", "23"]

/-- `LARGE_SPONSOR_THRESHOLD = 500.0` dollars, in cents. -/
def LARGE_SPONSOR_THRESHOLD : Int := 50000

/-- Result triple of `classify_row`: `(IRS category label, needs_review,
potential_sponsorship)`. -/
structure ClassResult where
  category : String
  needs_review : Bool
  potential_sponsorship : Bool
deriving DecidableEq, Repr

/-- Rule 1 of the cascade: `"balance" in desc and not any(kw in desc for kw in
["deposit", "withdrawal", "paid from", "pos debit", "ach"])`. -/
def ruleBalanceIgnore (d : List Char) : Bool :=
  containsKw d "balance" &&
    !(anyKw d ["deposit", "withdrawal", "paid from", "pos debit", "ach"])

/-- Rule 2: `"transfer" in desc and "savings" in desc`. -/
def ruleSavingsIgnore (d : List Char) : Bool :=
  containsKw d "transfer" && containsKw d "savings"

/-- Keyword list of the sponsorship/donation rule. -/
def SPONSOR_KEYWORDS : List String :=
  ["sponsorship", "sponsor", "corp sponsor", "donation", "donor"]

/-- Keyword list of the professional-fees rule (category 22). -/
def PROFESSIONAL_KEYWORDS : List String :=
  ["cooley", "legal", "attorney", "law firm",
   "cpa", "accounting", "bookkeeping",
   "consulting fee", "upwork",
   "airtable.com", "airtable",
   "g suite", "gsuite", "google workspace", "google*gsuite",
   "wild apricot", "wildapricot",
   "squarespace",
   "authnet gateway",
   "affinipay", "affinipayllc"]

/-- Keyword list of the SaaS/operating-expense rule (category 23). -/
def SAAS_KEYWORDS : List String :=
  ["convertkit", "kit.com", "networksolutio", "network solutions", "apple.com"]

/-- Keyword list of the donated-awards rule (category 15). -/
def AWARDS_KEYWORDS : List String := ["awards recognition", "maxter group"]

/-- Keyword list of the chapter/member-events rule (category 16). -/
def CHAPTER_KEYWORDS : List String :=
  ["chapter event", "chapter dinner", "chapter lunch", "chapter meeting",
   "paypal *sam", "paypal sam"]

/-- Keyword list of the processor/merchant-fees rule (category 23). -/
def MERCHANT_FEE_KEYWORDS : List String :=
  ["bkcrd fees", "merchant fee", "cardconnect", "processing fee"]

/-- `classify_row` of `app.py`: ordered rule cascade, first match wins.
`amountRaw = none` models an `Amount` value that `float()` cannot parse, which
the code's `try/except` replaces with `0.0`. -/
def classify_row (desc : String) (amountRaw : Option Int) : ClassResult :=
  if ruleBalanceIgnore (lowerChars desc) then ⟨"IGNORE", false, false⟩
  else if ruleSavingsIgnore (lowerChars desc) then ⟨"IGNORE", false, false⟩
  else if containsKw (lowerChars desc) "affinipay" && decide (0 < amountRaw.getD 0) then
    ⟨CATEGORY_LABELS "2", false, false⟩
  else if containsKw (lowerChars desc) "stripe transfer" && decide (0 < amountRaw.getD 0) then
    if decide (|amountRaw.getD 0| < 900) then ⟨CATEGORY_LABELS "9", false, false⟩
    else ⟨CATEGORY_LABELS "2", false, false⟩
  else if anyKw (lowerChars desc) SPONSOR_KEYWORDS then ⟨CATEGORY_LABELS "1", true, true⟩
  else if containsKw (lowerChars desc) "interest" && decide (0 < amountRaw.getD 0) then
    ⟨CATEGORY_LABELS "3", false, false⟩
  else if anyKw (lowerChars desc) PROFESSIONAL_KEYWORDS then
    ⟨CATEGORY_LABELS "22", false, false⟩
  else if anyKw (lowerChars desc) SAAS_KEYWORDS then ⟨CATEGORY_LABELS "23", false, false⟩
  else if anyKw (lowerChars desc) AWARDS_KEYWORDS then ⟨CATEGORY_LABELS "15", false, false⟩
  else if anyKw (lowerChars desc) CHAPTER_KEYWORDS then ⟨CATEGORY_LABELS "16", true, false⟩
  else if anyKw (lowerChars desc) MERCHANT_FEE_KEYWORDS then
    ⟨CATEGORY_LABELS "23", false, false⟩
  else if containsKw (lowerChars desc) "interest" && decide (amountRaw.getD 0 < 0) then
    ⟨CATEGORY_LABELS "19", false, false⟩
  else if decide (0 < amountRaw.getD 0) then
    if decide (LARGE_SPONSOR_THRESHOLD ≤ amountRaw.getD 0) then
      ⟨CATEGORY_LABELS "1", true, true⟩
    else ⟨CATEGORY_LABELS "7", true, false⟩
  else ⟨CATEGORY_LABELS "23", true, false⟩

/-! ## Classifier-level theorems -/

/-- Every value `classify_row` can return, read off branch by branch from the
cascade. -/
theorem classify_row_mem (desc : String) (amountRaw : Option Int) :
    classify_row desc amountRaw ∈
      ([⟨"IGNORE", false, false⟩,
        ⟨CATEGORY_LABELS "2", false, false⟩,
        ⟨CATEGORY_LABELS "9", false, false⟩,
        ⟨CATEGORY_LABELS "1", true, true⟩,
        ⟨CATEGORY_LABELS "3", false, false⟩,
        ⟨CATEGORY_LABELS "22", false, false⟩,
        ⟨CATEGORY_LABELS "23", false, false⟩,
        ⟨CATEGORY_LABELS "15", false, false⟩,
        ⟨CATEGORY_LABELS "16", true, false⟩,
        ⟨CATEGORY_LABELS "19", false, false⟩,
        ⟨CATEGORY_LABELS "7", true, false⟩,
        ⟨CATEGORY_LABELS "23", true, false⟩] : List ClassResult) := by
  unfold classify_row
  by_cases h1 : ruleBalanceIgnore (lowerChars desc) = true
  · rw [if_pos h1]; decide
  rw [if_neg h1]
  by_cases h2 : ruleSavingsIgnore (lowerChars desc) = true
  · rw [if_pos h2]; decide
  rw [if_neg h2]
  by_cases h3 : (containsKw (lowerChars desc) "affinipay" && decide (0 < amountRaw.getD 0)) = true
  · rw [if_pos h3]; decide
  rw [if_neg h3]
  by_cases h4 : (containsKw (lowerChars desc) "stripe transfer" && decide (0 < amountRaw.getD 0)) = true
  · rw [if_pos h4]
    by_cases h4b : decide (|amountRaw.getD 0| < 900) = true
    · rw [if_pos h4b]; decide
    · rw [if_neg h4b]; decide
  rw [if_neg h4]
  by_cases h5 : anyKw (lowerChars desc) SPONSOR_KEYWORDS = true
  · rw [if_pos h5]; decide
  rw [if_neg h5]
  by_cases h6 : (containsKw (lowerChars desc) "interest" && decide (0 < amountRaw.getD 0)) = true
  · rw [if_pos h6]; decide
  rw [if_neg h6]
  by_cases h7 : anyKw (lowerChars desc) PROFESSIONAL_KEYWORDS = true
  · rw [if_pos h7]; decide
  rw [if_neg h7]
  by_cases h8 : anyKw (lowerChars desc) SAAS_KEYWORDS = true
  · rw [if_pos h8]; decide
  rw [if_neg h8]
  by_cases h9 : anyKw (lowerChars desc) AWARDS_KEYWORDS = true
  · rw [if_pos h9]; decide
  rw [if_neg h9]
  by_cases h10 : anyKw (lowerChars desc) CHAPTER_KEYWORDS = true
  · rw [if_pos h10]; decide
  rw [if_neg h10]
  by_cases h11 : anyKw (lowerChars desc) MERCHANT_FEE_KEYWORDS = true
  · rw [if_pos h11]; decide
  rw [if_neg h11]
  by_cases h12 : (containsKw (lowerChars desc) "interest" && decide (amountRaw.getD 0 < 0)) = true
  · rw [if_pos h12]; decide
  rw [if_neg h12]
  by_cases h13 : decide (0 < amountRaw.getD 0) = true
  · rw [if_pos h13]
    by_cases h13b : decide (LARGE_SPONSOR_THRESHOLD ≤ amountRaw.getD 0) = true
    · rw [if_pos h13b]; decide
    · rw [if_neg h13b]; decide
  · rw [if_neg h13]; decide

/-- C1: a transaction whose description contains "stripe transfer"
(case-insensitively) with amount > 0, not matched by the two ignore rules nor
by the Affinipay rule, is classified to category 9 when |amount| < 9 dollars
(900 cents) and to category 2 otherwise — in both cases with
needs_review = false and potential_sponsorship = false. -/
theorem stripe_split_C1 (desc : String) (a : Int)
    (hstripe : containsKw (lowerChars desc) "stripe transfer" = true)
    (hpos : 0 < a)
    (hbal : ruleBalanceIgnore (lowerChars desc) = false)
    (hsav : ruleSavingsIgnore (lowerChars desc) = false)
    (haff : (containsKw (lowerChars desc) "affinipay" && decide (0 < a)) = false) :
    (|a| < 900 → classify_row desc (some a) = ⟨CATEGORY_LABELS "9", false, false⟩) ∧
    (900 ≤ |a| → classify_row desc (some a) = ⟨CATEGORY_LABELS "2", false, false⟩) := by
  have haff' : containsKw (lowerChars desc) "affinipay" = false := by
    cases hc : containsKw (lowerChars desc) "affinipay"
    · rfl
    · rw [hc] at haff; simp [hpos] at haff
  constructor
  · intro hlt
    simp [classify_row, hbal, hsav, haff', hstripe, hpos, hlt]
  · intro hge
    simp [classify_row, hbal, hsav, haff', hstripe, hpos, not_lt.mpr hge]

/-- Witness for C1 at the boundary: $8.99 (899 cents) goes to category 9,
$9.00 (900 cents) goes to category 2. -/
theorem stripe_split_C1_witness :
    classify_row "Stripe Transfer" (some 899) =
      ⟨CATEGORY_LABELS "9", false, false⟩ ∧
    classify_row "Stripe Transfer" (some 900) =
      ⟨CATEGORY_LABELS "2", false, false⟩ :=
  ⟨(stripe_split_C1 "Stripe Transfer" 899 (by decide) (by decide) (by decide)
      (by decide) (by decide)).1 (by decide),
   (stripe_split_C1 "Stripe Transfer" 900 (by decide) (by decide) (by decide)
      (by decide) (by decide)).2 (by decide)⟩

/-- C2: a transaction matched by none of the twelve earlier cascade rules is
classified by the fallback — category 1 with needs_review and
potential_sponsorship when amount ≥ $500 (50000 cents), category 7 with
needs_review for a smaller positive amount, category 23 with needs_review for
amount ≤ 0. -/
theorem fallback_C2 (desc : String) (a : Int)
    (h1 : ruleBalanceIgnore (lowerChars desc) = false)
    (h2 : ruleSavingsIgnore (lowerChars desc) = false)
    (h3 : (containsKw (lowerChars desc) "affinipay" && decide (0 < a)) = false)
    (h4 : (containsKw (lowerChars desc) "stripe transfer" && decide (0 < a)) = false)
    (h5 : anyKw (lowerChars desc) SPONSOR_KEYWORDS = false)
    (h6 : (containsKw (lowerChars desc) "interest" && decide (0 < a)) = false)
    (h7 : anyKw (lowerChars desc) PROFESSIONAL_KEYWORDS = false)
    (h8 : anyKw (lowerChars desc) SAAS_KEYWORDS = false)
    (h9 : anyKw (lowerChars desc) AWARDS_KEYWORDS = false)
    (h10 : anyKw (lowerChars desc) CHAPTER_KEYWORDS = false)
    (h11 : anyKw (lowerChars desc) MERCHANT_FEE_KEYWORDS = false)
    (h12 : (containsKw (lowerChars desc) "interest" && decide (a < 0)) = false) :
    (0 < a → LARGE_SPONSOR_THRESHOLD ≤ a →
      classify_row desc (some a) = ⟨CATEGORY_LABELS "1", true, true⟩) ∧
    (0 < a → a < LARGE_SPONSOR_THRESHOLD →
      classify_row desc (some a) = ⟨CATEGORY_LABELS "7", true, false⟩) ∧
    (a ≤ 0 → classify_row desc (some a) = ⟨CATEGORY_LABELS "23", true, false⟩) := by
  refine ⟨?_, ?_, ?_⟩
  · intro hpos hbig
    have e3 : containsKw (lowerChars desc) "affinipay" = false := by
      cases hc : containsKw (lowerChars desc) "affinipay"
      · rfl
      · rw [hc] at h3; simp [hpos] at h3
    have e4 : containsKw (lowerChars desc) "stripe transfer" = false := by
      cases hc : containsKw (lowerChars desc) "stripe transfer"
      · rfl
      · rw [hc] at h4; simp [hpos] at h4
    have e6 : containsKw (lowerChars desc) "interest" = false := by
      cases hc : containsKw (lowerChars desc) "interest"
      · rfl
      · rw [hc] at h6; simp [hpos] at h6
    simp [classify_row, h1, h2, e3, e4, h5, e6, h7, h8, h9, h10, h11, hpos, hbig]
  · intro hpos hsmall
    have e3 : containsKw (lowerChars desc) "affinipay" = false := by
      cases hc : containsKw (lowerChars desc) "affinipay"
      · rfl
      · rw [hc] at h3; simp [hpos] at h3
    have e4 : containsKw (lowerChars desc) "stripe transfer" = false := by
      cases hc : containsKw (lowerChars desc) "stripe transfer"
      · rfl
      · rw [hc] at h4; simp [hpos] at h4
    have e6 : containsKw (lowerChars desc) "interest" = false := by
      cases hc : containsKw (lowerChars desc) "interest"
      · rfl
      · rw [hc] at h6; simp [hpos] at h6
    simp [classify_row, h1, h2, e3, e4, h5, e6, h7, h8, h9, h10, h11, hpos,
      not_le.mpr hsmall]
  · intro hle
    have hnpos : ¬ (0 < a) := not_lt.mpr hle
    rcases lt_or_eq_of_le hle with hlt | heq
    · have e12 : containsKw (lowerChars desc) "interest" = false := by
        cases hc : containsKw (lowerChars desc) "interest"
        · rfl
        · rw [hc] at h12; simp [hlt] at h12
      simp [classify_row, h1, h2, h5, h7, h8, h9, h10, h11, e12, hnpos]
    · subst heq
      simp [classify_row, h1, h2, h5, h7, h8, h9, h10, h11]

/-- Witness for C2 on an unmatched description at amounts $1500, $42.50 and
-$42.50. -/
theorem fallback_C2_witness :
    classify_row "Random Vendor XYZ" (some 150000) =
      ⟨CATEGORY_LABELS "1", true, true⟩ ∧
    classify_row "Random Vendor XYZ" (some 4250) =
      ⟨CATEGORY_LABELS "7", true, false⟩ ∧
    classify_row "Random Vendor XYZ" (some (-4250)) =
      ⟨CATEGORY_LABELS "23", true, false⟩ :=
  ⟨(fallback_C2 "Random Vendor XYZ" 150000 (by decide) (by decide) (by decide)
      (by decide) (by decide) (by decide) (by decide) (by decide) (by decide)
      (by decide) (by decide) (by decide)).1 (by decide) (by decide),
   (fallback_C2 "Random Vendor XYZ" 4250 (by decide) (by decide) (by decide)
      (by decide) (by decide) (by decide) (by decide) (by decide) (by decide)
      (by decide) (by decide) (by decide)).2.1 (by decide) (by decide),
   (fallback_C2 "Random Vendor XYZ" (-4250) (by decide) (by decide) (by decide)
      (by decide) (by decide) (by decide) (by decide) (by decide) (by decide)
      (by decide) (by decide) (by decide)).2.2 (by decide)⟩

/-- C7: `classify_row` is a total function (it is defined for every input,
including an unparseable amount, modelled as `none`); an unparseable amount
behaves exactly as amount 0, and when no keyword rule matches such a row it is
routed to the amount ≤ 0 fallback: category 23 with needs_review = true. -/
theorem classifier_total_C7 (desc : String) :
    classify_row desc none = classify_row desc (some 0) ∧
    (ruleBalanceIgnore (lowerChars desc) = false →
     ruleSavingsIgnore (lowerChars desc) = false →
     anyKw (lowerChars desc) SPONSOR_KEYWORDS = false →
     anyKw (lowerChars desc) PROFESSIONAL_KEYWORDS = false →
     anyKw (lowerChars desc) SAAS_KEYWORDS = false →
     anyKw (lowerChars desc) AWARDS_KEYWORDS = false →
     anyKw (lowerChars desc) CHAPTER_KEYWORDS = false →
     anyKw (lowerChars desc) MERCHANT_FEE_KEYWORDS = false →
     classify_row desc none = ⟨CATEGORY_LABELS "23", true, false⟩) := by
  constructor
  · rfl
  · intro h1 h2 h5 h7 h8 h9 h10 h11
    simp [classify_row, h1, h2, h5, h7, h8, h9, h10, h11]

/-- Witness for C7: a row with an unparseable amount and no keyword match
lands in category 23 with needs_review. -/
theorem classifier_total_C7_witness :
    classify_row "Mystery Vendor" none = ⟨CATEGORY_LABELS "23", true, false⟩ :=
  (classifier_total_C7 "Mystery Vendor").2 (by decide) (by decide) (by decide)
    (by decide) (by decide) (by decide) (by decide) (by decide)

/-- C9: the classifier's category is always either the "IGNORE" sentinel or
one of the 14 registry labels, and is never the label of code 4, 6, 14 or 18
(those can only be set by the human reviewer). -/
theorem classifier_codomain_C9 (desc : String) (amountRaw : Option Int) :
    ((classify_row desc amountRaw).category = "IGNORE" ∨
      (classify_row desc amountRaw).category ∈ REGISTRY_LABELS) ∧
    (classify_row desc amountRaw).category ∉
      ([CATEGORY_LABELS "4", CATEGORY_LABELS "6",
        CATEGORY_LABELS "14", CATEGORY_LABELS "18"] : List String) := by
  have h := classify_row_mem desc amountRaw
  simp only [List.mem_cons, List.not_mem_nil, or_false] at h
  rcases h with h | h | h | h | h | h | h | h | h | h | h | h <;> rw [h] <;> decide

/-- C10: whenever the classifier sets potential_sponsorship, the category is
"1 - Gifts, grants, contributions received" and needs_review is set too. -/
theorem sponsorship_invariant_C10 (desc : String) (amountRaw : Option Int)
    (h : (classify_row desc amountRaw).potential_sponsorship = true) :
    (classify_row desc amountRaw).category = CATEGORY_LABELS "1" ∧
    (classify_row desc amountRaw).needs_review = true := by
  have hm := classify_row_mem desc amountRaw
  simp only [List.mem_cons, List.not_mem_nil, or_false] at hm
  rcases hm with e | e | e | e | e | e | e | e | e | e | e | e <;> rw [e] at h ⊢ <;>
    first
      | exact absurd h (by decide)
      | decide

/-- Witness for C10 on a keyword-matched sponsorship deposit. -/
theorem sponsorship_invariant_C10_witness :
    (classify_row "Corporate Sponsor ABC" (some 150000)).category =
      CATEGORY_LABELS "1" ∧
    (classify_row "Corporate Sponsor ABC" (some 150000)).needs_review = true :=
  sponsorship_invariant_C10 "Corporate Sponsor ABC" (some 150000) (by decide)

/-! ## Batch pipeline -/

/-- One raw uploaded row, after the ensure-columns step of the pipeline gave
every annotation column a default.  `description = none` models a NaN cell
(dropped by `dropna`); `amount = none` models a value that neither `float()`
nor `pd.to_numeric` can parse. -/
structure Row where
  date : String
  description : Option String
  amount : Option Int
  member_event_label : String
  event_location : String
  event_purpose : String
  sponsor_name : String
  itemization_label : String
  needs_further_investigation : Bool
deriving DecidableEq, Repr

/-- A classified row: the raw fields plus the attached period and the three
classifier outputs. -/
structure CRow where
  date : String
  description : String
  amount : Option Int
  member_event_label : String
  event_location : String
  event_purpose : String
  sponsor_name : String
  itemization_label : String
  needs_further_investigation : Bool
  month : Nat
  year : Nat
  category : String
  needs_review : Bool
  potential_sponsorship : Bool
deriving DecidableEq, Repr

/-- Pipeline steps 1–2 (`df.dropna(subset=["Description"])` followed by
`df[~df["Description"].str.contains("balance", case=False)]`): drop rows with
a missing description, then drop rows whose description contains "balance"
case-insensitively. -/
def dropJunkRows (rows : List Row) : List Row :=
  (rows.filter (fun r => r.description.isSome)).filter
    (fun r => !containsKw (lowerChars (r.description.getD "")) "balance")

/-- Apply `classify_row` to one retained row and attach the report period
(`df["Month"] = month_number; df["Year"] = int(year)`). -/
def classifyOne (m y : Nat) (r : Row) : CRow :=
  { date := r.date
    description := r.description.getD ""
    amount := r.amount
    member_event_label := r.member_event_label
    event_location := r.event_location
    event_purpose := r.event_purpose
    sponsor_name := r.sponsor_name
    itemization_label := r.itemization_label
    needs_further_investigation := r.needs_further_investigation
    month := m
    year := y
    category := (classify_row (r.description.getD "") r.amount).category
    needs_review := (classify_row (r.description.getD "") r.amount).needs_review
    potential_sponsorship :=
      (classify_row (r.description.getD "") r.amount).potential_sponsorship }

/-- The `journal_mask` of `app.py`: description contains "stripe transfer"
(case-insensitive), numeric amount > 0 and |amount| < $9 (900 cents); an
unparseable amount counts as 0 (`pd.to_numeric(...).fillna(0.0)`). -/
def journalPred (c : CRow) : Bool :=
  containsKw (lowerChars c.description) "stripe transfer"
    && decide (0 < c.amount.getD 0) && decide (|c.amount.getD 0| < 900)

/-- Pipeline step: rows matched by `journal_mask` are force-set to category 9
and, when the itemization label is still empty, labelled "Journal
subscriptions". -/
def applyJournal (c : CRow) : CRow :=
  if journalPred c then
    { c with
      category := CATEGORY_LABELS "9"
      itemization_label :=
        if c.itemization_label = "" then "Journal subscriptions"
        else c.itemization_label }
  else c

/-- The prefixes of the `str.startswith(("7 ", "9 ", "15 ", "16 ", "23 "))`
force-review step. -/
def ITEMIZED_CODE_MARKS : List String := ["7 ", "9 ", "15 ", "16 ", "23 "]

/-- Force-review step: OR `needs_review` with "category starts with an
itemized code", then reset it to false on `journal_mask` rows. -/
def forceReviewStep (c : CRow) : CRow :=
  if journalPred c then
    { c with needs_review := false }
  else
    { c with
      needs_review :=
        c.needs_review || ITEMIZED_CODE_MARKS.any (fun p => strStarts c.category p) }

/-- The batch pipeline up to the manual-review merge point: drop junk rows,
classify, drop `IGNORE` rows, apply the Stripe journal auto-rule, then the
force-review step.  (The external reviewer merge and the final column drop do
not change which rows exist.) -/
def run_pipeline (rows : List Row) (m y : Nat) : List CRow :=
  ((((dropJunkRows rows).map (classifyOne m y)).filter
      (fun c => c.category != "IGNORE")).map applyJournal).map forceReviewStep

/-! ## Pipeline theorems -/

/-- `applyJournal` never changes the description or the amount. -/
theorem applyJournal_description (c : CRow) :
    (applyJournal c).description = c.description := by
  unfold applyJournal; split <;> rfl

/-- `journal_mask` only reads fields `applyJournal` leaves unchanged. -/
theorem journalPred_applyJournal (c : CRow) :
    journalPred (applyJournal c) = journalPred c := by
  unfold applyJournal; split <;> rfl

/-- `forceReviewStep` never changes the description. -/
theorem forceReviewStep_description (c : CRow) :
    (forceReviewStep c).description = c.description := by
  unfold forceReviewStep; split <;> rfl

/-- `forceReviewStep` never changes the category. -/
theorem forceReviewStep_category (c : CRow) :
    (forceReviewStep c).category = c.category := by
  unfold forceReviewStep; split <;> rfl

/-- C3: a retained row matched by `journal_mask` ends the pipeline in
category 9 with needs_review = false and, when its itemization label was
empty, label "Journal subscriptions" (an existing label is kept); any other
retained row whose final category starts with code 7, 9, 15, 16 or 23 ends
with needs_review = true. -/
theorem pipeline_journal_C3 (rows : List Row) (m y : Nat) (r : Row)
    (hmem : r ∈ rows)
    (hdesc : r.description.isSome = true)
    (hbal : containsKw (lowerChars (r.description.getD "")) "balance" = false)
    (hign : (classifyOne m y r).category ≠ "IGNORE") :
    forceReviewStep (applyJournal (classifyOne m y r)) ∈ run_pipeline rows m y ∧
    (journalPred (classifyOne m y r) = true →
      (forceReviewStep (applyJournal (classifyOne m y r))).category =
        CATEGORY_LABELS "9" ∧
      (forceReviewStep (applyJournal (classifyOne m y r))).needs_review = false ∧
      (forceReviewStep (applyJournal (classifyOne m y r))).itemization_label =
        (if r.itemization_label = "" then "Journal subscriptions"
         else r.itemization_label)) ∧
    (journalPred (classifyOne m y r) = false →
      ITEMIZED_CODE_MARKS.any
          (fun p =>
            strStarts (forceReviewStep (applyJournal (classifyOne m y r))).category p) =
        true →
      (forceReviewStep (applyJournal (classifyOne m y r))).needs_review = true) := by
  have h1 : r ∈ dropJunkRows rows := by
    unfold dropJunkRows
    exact List.mem_filter.mpr ⟨List.mem_filter.mpr ⟨hmem, hdesc⟩, by simp [hbal]⟩
  have h2 : classifyOne m y r ∈ (dropJunkRows rows).map (classifyOne m y) :=
    List.mem_map_of_mem _ h1
  have h3 : classifyOne m y r ∈
      ((dropJunkRows rows).map (classifyOne m y)).filter
        (fun c => c.category != "IGNORE") :=
    List.mem_filter.mpr ⟨h2, by simpa [bne_iff_ne] using hign⟩
  have h4 := List.mem_map_of_mem applyJournal h3
  have h5 := List.mem_map_of_mem forceReviewStep h4
  refine ⟨h5, ?_, ?_⟩
  · intro hj
    have e1 : applyJournal (classifyOne m y r) =
        { classifyOne m y r with
          category := CATEGORY_LABELS "9"
          itemization_label :=
            if (classifyOne m y r).itemization_label = "" then "Journal subscriptions"
            else (classifyOne m y r).itemization_label } := by
      unfold applyJournal
      rw [if_pos hj]
    have e2 : forceReviewStep (applyJournal (classifyOne m y r)) =
        { applyJournal (classifyOne m y r) with needs_review := false } := by
      unfold forceReviewStep
      rw [journalPred_applyJournal, if_pos hj]
    rw [e2, e1]
    exact ⟨rfl, rfl, rfl⟩
  · intro hj hstart
    have e1 : applyJournal (classifyOne m y r) = classifyOne m y r := by
      unfold applyJournal
      rw [if_neg (by simp [hj])]
    rw [e1] at hstart ⊢
    simp only [forceReviewStep_category] at hstart
    unfold forceReviewStep
    rw [if_neg (by simp [hj])]
    simp [hstart]

/-- A Stripe micro-transfer row ($5.00, in cents) for the C3 witness. -/
def stripeRow : Row :=
  { date := "3/2", description := some "Stripe Transfer", amount := some 500,
    member_event_label := "", event_location := "", event_purpose := "",
    sponsor_name := "", itemization_label := "",
    needs_further_investigation := false }

/-- Witness for C3: the $5.00 Stripe transfer ends in category 9, not flagged
for review, auto-labelled, and is a pipeline output row. -/
theorem pipeline_journal_C3_witness :
    (forceReviewStep (applyJournal (classifyOne 3 2024 stripeRow))).category =
      CATEGORY_LABELS "9" ∧
    (forceReviewStep (applyJournal (classifyOne 3 2024 stripeRow))).needs_review =
      false ∧
    (forceReviewStep (applyJournal (classifyOne 3 2024 stripeRow))).itemization_label =
      "Journal subscriptions" ∧
    forceReviewStep (applyJournal (classifyOne 3 2024 stripeRow)) ∈
      run_pipeline [stripeRow] 3 2024 := by
  obtain ⟨hm, hj, -⟩ :=
    pipeline_journal_C3 [stripeRow] 3 2024 stripeRow (by decide) (by decide)
      (by decide) (by decide)
  obtain ⟨hc, hr, hl⟩ := hj (by decide)
  exact ⟨hc, hr, by rw [hl]; decide, hm⟩

/-- Row whose description contains "balance" but that classifier rule 1 would
have kept (it also contains "deposit"); the pre-filter drops it anyway. -/
def balanceKeptRow : Row :=
  { date := "", description := some "Deposit - balance transfer bonus",
    amount := some 10000,
    member_event_label := "", event_location := "", event_purpose := "",
    sponsor_name := "", itemization_label := "",
    needs_further_investigation := false }

/-- C4: the pre-filter drops every raw row whose description contains
"balance" (case-insensitively) before classification — no pipeline output row
has such a description — including rows the classifier's own hard-ignore rule
would have kept, e.g. "Deposit - balance transfer bonus". -/
theorem balance_prefilter_C4 (rows : List Row) (m y : Nat) :
    (∀ r ∈ rows,
      containsKw (lowerChars (r.description.getD "")) "balance" = true →
      r ∉ dropJunkRows rows) ∧
    (∀ o ∈ run_pipeline rows m y,
      containsKw (lowerChars o.description) "balance" = false) ∧
    (classify_row "Deposit - balance transfer bonus" (some 10000)).category ≠
      "IGNORE" ∧
    run_pipeline [balanceKeptRow] m y = [] := by
  refine ⟨?_, ?_, by decide, ?_⟩
  · intro r _ hb hcontra
    have hq := (List.mem_filter.mp hcontra).2
    rw [hb] at hq
    exact absurd hq (by decide)
  · intro o ho
    unfold run_pipeline at ho
    obtain ⟨c2, hc2, rfl⟩ := List.mem_map.mp ho
    obtain ⟨c1, hc1, rfl⟩ := List.mem_map.mp hc2
    obtain ⟨hc1m, -⟩ := List.mem_filter.mp hc1
    obtain ⟨r, hrm, rfl⟩ := List.mem_map.mp hc1m
    have hq := (List.mem_filter.mp hrm).2
    rw [forceReviewStep_description, applyJournal_description]
    have e : (classifyOne m y r).description = r.description.getD "" := rfl
    rw [e]
    cases hx : containsKw (lowerChars (r.description.getD "")) "balance"
    · rfl
    · rw [hx] at hq
      exact absurd hq (by decide)
  · rfl

/-- Witness for C4: the "Deposit - balance transfer bonus" row — which the
classifier itself would have kept — is dropped before classification. -/
theorem balance_prefilter_C4_witness :
    balanceKeptRow ∉ dropJunkRows [balanceKeptRow] ∧
    run_pipeline [balanceKeptRow] 3 2024 = [] :=
  ⟨(balance_prefilter_C4 [balanceKeptRow] 3 2024).1 balanceKeptRow (by decide)
      (by decide),
   (balance_prefilter_C4 [balanceKeptRow] 3 2024).2.2.2⟩

/-- Row with an empty-but-present description (the empty string, not NaN). -/
def emptyDescRow : Row :=
  { date := "", description := some "", amount := some (-500),
    member_event_label := "", event_location := "", event_purpose := "",
    sponsor_name := "", itemization_label := "",
    needs_further_investigation := false }

/-- Counterexample to C8 as stated: a row whose description is present but
empty is NOT excluded — `dropna` only drops missing (NaN) descriptions, so
this row survives the pipeline (classified to the amount ≤ 0 fallback). -/
theorem empty_desc_C8_cex :
    emptyDescRow.description = some "" ∧
    (run_pipeline [emptyDescRow] 3 2024).length = 1 ∧
    (forceReviewStep (applyJournal (classifyOne 3 2024 emptyDescRow))).category =
      CATEGORY_LABELS "23" := by
  refine ⟨rfl, rfl, by decide⟩

/-- C8 as amended: a row with a MISSING description is silently excluded
before classification (the pipeline output is unchanged if such rows are
pre-removed), and every row surviving the drop step has a present
description.  An empty-but-present description is retained. -/
theorem missing_desc_C8 (rows : List Row) (m y : Nat) :
    run_pipeline rows m y =
      run_pipeline (rows.filter (fun r => r.description.isSome)) m y ∧
    ∀ r ∈ dropJunkRows rows, r.description.isSome = true := by
  constructor
  · unfold run_pipeline
    have e : dropJunkRows (rows.filter (fun r => r.description.isSome)) =
        dropJunkRows rows := by
      unfold dropJunkRows
      congr 1
      induction rows with
      | nil => rfl
      | cons a t ih =>
        by_cases ha : a.description.isSome = true
        · simp [ha, ih]
        · simp [ha, ih]
    rw [e]
  · intro r hr
    exact (List.mem_filter.mp (List.mem_filter.mp hr).1).2

/-- Row with a missing (NaN) description for the C8 witness. -/
def missingDescRow : Row :=
  { date := "", description := none, amount := some 100,
    member_event_label := "", event_location := "", event_purpose := "",
    sponsor_name := "", itemization_label := "",
    needs_further_investigation := false }

/-- Witness for the amended C8 on a concrete two-row input. -/
theorem missing_desc_C8_witness :
    run_pipeline [missingDescRow, stripeRow] 3 2024 =
      run_pipeline
        ([missingDescRow, stripeRow].filter (fun r => r.description.isSome))
        3 2024 ∧
    stripeRow.description.isSome = true :=
  ⟨(missing_desc_C8 [missingDescRow, stripeRow] 3 2024).1,
   (missing_desc_C8 [missingDescRow, stripeRow] 3 2024).2 stripeRow (by decide)⟩

/-! ## Aggregator -/

/-- Numeric amount of a classified row; NaN counts as 0 in pandas sums. -/
def amountVal (c : CRow) : Int := c.amount.getD 0

/-- One row of `summary`: category label, summed amount, attached period. -/
structure SummaryRow where
  category : String
  amount : Int
  month : Nat
  year : Nat
deriving DecidableEq, Repr

/-- The distinct category labels of the final rows in string-sort order
(`groupby("IRS Category") ... .sort_values("IRS Category")`). -/
def summaryCategories (final : List CRow) : List String :=
  List.insertionSort (fun a b => strLeb a b = true)
    (final.map (fun c => c.category)).dedup

/-- Sum of `Amount` over the rows of one category. -/
def categoryTotal (final : List CRow) (cat : String) : Int :=
  ((final.filter (fun c => c.category == cat)).map amountVal).sum

/-- The `summary` dataframe: per-category totals with the report period
attached to every row. -/
def buildSummary (final : List CRow) (m y : Nat) : List SummaryRow :=
  (summaryCategories final).map (fun cat => ⟨cat, categoryTotal final cat, m, y⟩)

/-- Splitting a sum of amounts along a Boolean predicate. -/
theorem sum_map_filter_split (l : List CRow) (p : CRow → Bool) :
    ((l.filter p).map amountVal).sum +
      ((l.filter (fun c => !(p c))).map amountVal).sum =
      (l.map amountVal).sum := by
  induction l with
  | nil => rfl
  | cons a t ih =>
    cases hp : p a <;> simp [hp] <;> omega

/-- Filtering away one category does not change another category's rows. -/
theorem filter_category_of_ne (l : List CRow) (c c' : String) (hne : c' ≠ c) :
    ((l.filter (fun x => !(x.category == c))).filter
        (fun x => x.category == c')) =
      l.filter (fun x => x.category == c') := by
  induction l with
  | nil => rfl
  | cons a t ih =>
    cases h1 : a.category == c
    · cases h2 : a.category == c' <;> simp [h1, h2, ih]
    · have e : a.category = c := by simpa using h1
      have h2 : (a.category == c') = false := by
        simp [e]
        exact fun hh => hne hh.symm
      simp [h1, h2, ih]

/-- Summing the per-category totals over a duplicate-free list of categories
covering every row gives the total of all amounts. -/
theorem sum_over_categories (cs : List String) :
    ∀ l : List CRow, cs.Nodup → (∀ c ∈ l, c.category ∈ cs) →
      (cs.map (categoryTotal l)).sum = (l.map amountVal).sum := by
  induction cs with
  | nil =>
    intro l _ hcov
    cases l with
    | nil => rfl
    | cons a t => exact absurd (hcov a (List.mem_cons_self a t)) (List.not_mem_nil _)
  | cons c cs ih =>
    intro l hnd hcov
    have hnotin : c ∉ cs := (List.nodup_cons.mp hnd).1
    have hnd' : cs.Nodup := (List.nodup_cons.mp hnd).2
    have e2 : cs.map (categoryTotal l) =
        cs.map (categoryTotal (l.filter (fun x => !(x.category == c)))) := by
      refine List.map_congr_left ?_
      intro c' hc'
      unfold categoryTotal
      rw [filter_category_of_ne l c c' (fun hh => hnotin (hh ▸ hc'))]
    have hcov' : ∀ x ∈ l.filter (fun x => !(x.category == c)), x.category ∈ cs := by
      intro x hx
      obtain ⟨hxl, hxne⟩ := List.mem_filter.mp hx
      have hne : x.category ≠ c := by simpa using hxne
      rcases List.mem_cons.mp (hcov x hxl) with h | h
      · exact absurd h hne
      · exact h
    have hrec := ih (l.filter (fun x => !(x.category == c))) hnd' hcov'
    have hsplit := sum_map_filter_split l (fun x => x.category == c)
    calc (List.map (categoryTotal l) (c :: cs)).sum
        = categoryTotal l c + (cs.map (categoryTotal l)).sum := by simp
      _ = categoryTotal l c +
            ((l.filter (fun x => !(x.category == c))).map amountVal).sum := by
          rw [e2, hrec]
      _ = (l.map amountVal).sum := hsplit

/-- In a duplicate-free list, filtering for one of its members finds exactly
one element. -/
theorem length_filter_eq_one_of_nodup (l : List String) (c : String)
    (hnd : l.Nodup) (hc : c ∈ l) :
    (l.filter (fun x => x == c)).length = 1 := by
  induction l with
  | nil => exact absurd hc (List.not_mem_nil _)
  | cons a t ih =>
    have hna : a ∉ t := (List.nodup_cons.mp hnd).1
    have hnd' : t.Nodup := (List.nodup_cons.mp hnd).2
    by_cases he : a = c
    · subst he
      have : t.filter (fun x => x == a) = [] := by
        refine List.filter_eq_nil_iff.mpr ?_
        intro x hx
        simp only [Bool.not_eq_true, beq_eq_false_iff_ne]
        exact fun hh => hna (hh ▸ hx)
      simp [this]
    · have hct : c ∈ t := by
        rcases List.mem_cons.mp hc with h | h
        · exact absurd h.symm he
        · exact h
      have h2 : (a == c) = false := by simpa using he
      simp [h2, ih hnd' hct]

/-- C5: aggregation is sum-preserving — the summary-row amounts add up to the
total of all final transactions' amounts, summary categories are pairwise
distinct, and every final transaction's category appears in exactly one
summary row. -/
theorem aggregation_sum_C5 (final : List CRow) (m y : Nat) :
    ((buildSummary final m y).map (fun s => s.amount)).sum =
      (final.map amountVal).sum ∧
    ((buildSummary final m y).map (fun s => s.category)).Nodup ∧
    ∀ c ∈ final,
      ((buildSummary final m y).filter
          (fun s => s.category == c.category)).length = 1 := by
  have hperm : List.Perm (summaryCategories final)
      (final.map (fun c => c.category)).dedup :=
    List.perm_insertionSort _ _
  refine ⟨?_, ?_, ?_⟩
  · have e1 : ((buildSummary final m y).map (fun s => s.amount)) =
        (summaryCategories final).map (categoryTotal final) := by
      unfold buildSummary
      rw [List.map_map]
      rfl
    rw [e1, (hperm.map (categoryTotal final)).sum_eq]
    exact sum_over_categories _ final (List.nodup_dedup _)
      (fun c hc => List.mem_dedup.mpr (List.mem_map_of_mem _ hc))
  · have e1 : ((buildSummary final m y).map (fun s => s.category)) =
        summaryCategories final := by
      unfold buildSummary
      rw [List.map_map]
      exact List.map_id' _
    rw [e1]
    exact hperm.nodup_iff.mpr (List.nodup_dedup _)
  · intro c hc
    have e1 : ((buildSummary final m y).filter
          (fun s => s.category == c.category)).length =
        ((summaryCategories final).filter (fun x => x == c.category)).length := by
      unfold buildSummary
      rw [List.filter_map, List.length_map]
      rfl
    rw [e1]
    rw [← List.countP_eq_length_filter, hperm.countP_eq, List.countP_eq_length_filter]
    exact length_filter_eq_one_of_nodup _ _ (List.nodup_dedup _)
      (List.mem_dedup.mpr (List.mem_map_of_mem _ hc))

/-- A second concrete final row (category 23 expense) for the C5 witness. -/
def expenseCRow : CRow :=
  { date := "3/9", description := "Random Vendor XYZ", amount := some (-4250),
    member_event_label := "", event_location := "", event_purpose := "",
    sponsor_name := "", itemization_label := "Bank fees",
    needs_further_investigation := false, month := 3, year := 2024,
    category := "23 - Other expenses not classified above",
    needs_review := true, potential_sponsorship := false }

/-- A concrete category-9 final row for the C5 witness. -/
def journalCRow : CRow :=
  { date := "3/2", description := "Stripe Transfer", amount := some 500,
    member_event_label := "", event_location := "", event_purpose := "",
    sponsor_name := "", itemization_label := "Journal subscriptions",
    needs_further_investigation := false, month := 3, year := 2024,
    category := "9 - Gross receipts from activities related to exempt purpose",
    needs_review := false, potential_sponsorship := false }

/-- Witness for C5 on a concrete three-row final set (two categories). -/
theorem aggregation_sum_C5_witness :
    ((buildSummary [journalCRow, expenseCRow, expenseCRow] 3 2024).map
        (fun s => s.amount)).sum =
      ([journalCRow, expenseCRow, expenseCRow].map amountVal).sum ∧
    ((buildSummary [journalCRow, expenseCRow, expenseCRow] 3 2024).filter
        (fun s => s.category == expenseCRow.category)).length = 1 :=
  ⟨(aggregation_sum_C5 [journalCRow, expenseCRow, expenseCRow] 3 2024).1,
   (aggregation_sum_C5 [journalCRow, expenseCRow, expenseCRow] 3 2024).2.2
     expenseCRow (by decide)⟩

/-! ## Itemized text-report sections -/

/-- One line of an itemized section: either a `label/sponsor: total` line of a
grouped breakdown, or one `date | event | location | purpose | amount` line of
the category-16 individual-events listing. -/
inductive ItemLine where
  | grouped (key : String) (total : Int)
  | event (date evt loc purp : String) (amt : Int)
deriving DecidableEq, Repr

/-- One per-category itemized section of the text report. -/
structure ReportSection where
  code : String
  lines : List ItemLine
deriving DecidableEq, Repr

/-- `cat.split(" ", 1)[0]`: the category code in front of the first space. -/
def codeOf (cat : String) : String :=
  String.mk (cat.data.takeWhile (fun ch => ch != ' '))

/-- `df[df["IRS Category"].str.startswith(f"{code} ")]`. -/
def catRows (final : List CRow) (code : String) : List CRow :=
  final.filter (fun r => strStarts r.category (code ++ " "))

/-- `.replace("", "UNLABELED")` on the itemization-label column. -/
def labelOrUnlabeled (r : CRow) : String :=
  if r.itemization_label = "" then "UNLABELED" else r.itemization_label

/-- `groupby(key)["Amount"].sum() ... sort_values(key)`: one grouped line per
distinct key, keys in string-sort order. -/
def groupTotals (rows : List CRow) (key : CRow → String) : List ItemLine :=
  (List.insertionSort (fun a b => strLeb a b = true) (rows.map key).dedup).map
    (fun k =>
      ItemLine.grouped k (((rows.filter (fun r => key r == k)).map amountVal).sum))

/-- The itemized-revenue loop body for one category code: skip when the
category has no rows or none of its rows carries a non-empty itemization
label or sponsor name; category 1 groups by sponsor name over the rows with a
sponsor, other revenue categories group by itemization label with the
"UNLABELED" placeholder. -/
def revSectionFor (final : List CRow) (code : String) : Option ReportSection :=
  if (catRows final code).isEmpty then none
  else if !((catRows final code).any (fun r => r.itemization_label != "") ||
      (catRows final code).any (fun r => r.sponsor_name != "")) then none
  else if code = "1" then
    some ⟨code,
      groupTotals ((catRows final code).filter (fun r => r.sponsor_name != ""))
        (fun r => r.sponsor_name)⟩
  else some ⟨code, groupTotals (catRows final code) labelOrUnlabeled⟩

/-- The itemized-expense loop body for one category code: category 16 lists
every transaction individually whenever the category has rows; any other
expense category is skipped unless some row has a non-empty itemization
label, and is otherwise grouped by label. -/
def expSectionFor (final : List CRow) (code : String) : Option ReportSection :=
  if (catRows final code).isEmpty then none
  else if code = "16" then
    some ⟨code,
      (catRows final code).map (fun r =>
        ItemLine.event r.date r.member_event_label r.event_location
          r.event_purpose (amountVal r))⟩
  else if !((catRows final code).any (fun r => r.itemization_label != "")) then none
  else some ⟨code, groupTotals (catRows final code) labelOrUnlabeled⟩

/-- The itemized part of the text report: the revenue loop over the summary
categories, then the expense loop. -/
def itemizedSections (final : List CRow) : List ReportSection :=
  ((summaryCategories final).filterMap (fun cat =>
    if REVENUE_CODES.contains (codeOf cat) then revSectionFor final (codeOf cat)
    else none)) ++
  ((summaryCategories final).filterMap (fun cat =>
    if EXPENSE_CODES.contains (codeOf cat) then expSectionFor final (codeOf cat)
    else none))

/-! ## Report theorems -/

/-- `isEmpty = false` for row lists, in membership form. -/
theorem isEmpty_false_iff (l : List CRow) : l.isEmpty = false ↔ l ≠ [] := by
  cases l <;> simp

/-- The code recorded in an emitted revenue section is the code it was built
for. -/
theorem revSectionFor_code (final : List CRow) (c : String) (sec : ReportSection)
    (h : revSectionFor final c = some sec) : sec.code = c := by
  unfold revSectionFor at h
  by_cases h1 : (catRows final c).isEmpty
  · rw [if_pos h1] at h
    exact absurd h (by simp)
  · rw [if_neg h1] at h
    by_cases h2 : ((catRows final c).any (fun r => r.itemization_label != "") ||
        (catRows final c).any (fun r => r.sponsor_name != "")) = true
    · rw [if_neg (by simp [h2])] at h
      by_cases h3 : c = "1"
      · rw [if_pos h3] at h
        obtain rfl := Option.some.inj h
        rfl
      · rw [if_neg h3] at h
        obtain rfl := Option.some.inj h
        rfl
    · rw [if_pos (by simp [Bool.not_eq_true] at h2 ⊢; exact h2)] at h
      exact absurd h (by simp)

/-- The code recorded in an emitted expense section is the code it was built
for. -/
theorem expSectionFor_code (final : List CRow) (c : String) (sec : ReportSection)
    (h : expSectionFor final c = some sec) : sec.code = c := by
  unfold expSectionFor at h
  by_cases h1 : (catRows final c).isEmpty
  · rw [if_pos h1] at h
    exact absurd h (by simp)
  · rw [if_neg h1] at h
    by_cases h2 : c = "16"
    · rw [if_pos h2] at h
      obtain rfl := Option.some.inj h
      rfl
    · rw [if_neg h2] at h
      by_cases h3 : (catRows final c).any (fun r => r.itemization_label != "") = true
      · rw [if_neg (by simp [h3])] at h
        obtain rfl := Option.some.inj h
        rfl
      · rw [if_pos (by simp [Bool.not_eq_true] at h3 ⊢; exact h3)] at h
        exact absurd h (by simp)

/-- A category-16 final row carrying no label or sponsor data at all. -/
def event16CRow : CRow :=
  { date := "3/5", description := "PAYPAL SAM dinner", amount := some (-12000),
    member_event_label := "", event_location := "", event_purpose := "",
    sponsor_name := "", itemization_label := "",
    needs_further_investigation := false, month := 3, year := 2024,
    category := "16 - Disbursements to/for members",
    needs_review := true, potential_sponsorship := false }

/-- Counterexample to C6 as stated: with a single category-16 transaction
carrying NO label or sponsor data whatsoever, the report still emits the
category-16 itemized section (listing the transaction), instead of skipping
it as the claim's skip rule would require. -/
theorem report_skip_C6_cex :
    (∀ r ∈ [event16CRow],
      r.itemization_label = "" ∧ r.sponsor_name = "" ∧
      r.member_event_label = "" ∧ r.event_location = "" ∧ r.event_purpose = "") ∧
    (itemizedSections [event16CRow]).map (fun s => s.code) = ["16"] := by
  exact ⟨by decide, by decide⟩

/-- C6 as amended: a revenue category's section (category 1 included) is
emitted iff the category has rows and some row carries a non-empty
itemization label OR sponsor name; an expense category other than 16 is
emitted iff it has rows and some row carries a non-empty itemization label;
category 16's section is emitted whenever the category has rows — with no
requirement of any label data — and it lists every transaction of the
category individually (date, event label, location, purpose, amount); every
section of the report comes from these two builders applied to a summary
category. -/
theorem report_skip_C6 (final : List CRow) (code : String) :
    (revSectionFor final code ≠ none ↔
      catRows final code ≠ [] ∧
      ∃ r ∈ catRows final code,
        (r.itemization_label ≠ "" ∨ r.sponsor_name ≠ "")) ∧
    (code ≠ "16" →
      (expSectionFor final code ≠ none ↔
        catRows final code ≠ [] ∧
        ∃ r ∈ catRows final code, r.itemization_label ≠ "")) ∧
    (∀ sec, expSectionFor final "16" = some sec →
      sec.lines = (catRows final "16").map (fun r =>
        ItemLine.event r.date r.member_event_label r.event_location
          r.event_purpose (amountVal r))) ∧
    (catRows final "16" ≠ [] → expSectionFor final "16" ≠ none) ∧
    (∀ sec ∈ itemizedSections final,
      (REVENUE_CODES.contains sec.code = true ∧
        revSectionFor final sec.code = some sec) ∨
      (EXPENSE_CODES.contains sec.code = true ∧
        expSectionFor final sec.code = some sec)) := by
  refine ⟨?_, ?_, ?_, ?_, ?_⟩
  · have key : revSectionFor final code ≠ none ↔
        ((catRows final code).isEmpty = false ∧
         ((catRows final code).any (fun r => r.itemization_label != "") ||
          (catRows final code).any (fun r => r.sponsor_name != "")) = true) := by
      unfold revSectionFor
      by_cases h1 : (catRows final code).isEmpty
      · simp [h1]
      · rw [if_neg h1]
        by_cases h2 : ((catRows final code).any (fun r => r.itemization_label != "") ||
            (catRows final code).any (fun r => r.sponsor_name != "")) = true
        · rw [if_neg (by simp [h2])]
          have h1f : (catRows final code).isEmpty = false := by
            simpa [Bool.not_eq_true] using h1
          by_cases h3 : code = "1"
          · rw [if_pos h3]
            simp [h1f, h2]
          · rw [if_neg h3]
            simp [h1f, h2]
        · have h2f : ((catRows final code).any (fun r => r.itemization_label != "") ||
              (catRows final code).any (fun r => r.sponsor_name != "")) = false := by
            simpa [Bool.not_eq_true] using h2
          rw [if_pos (by simp [h2f])]
          simp [h2f]
    rw [key, isEmpty_false_iff]
    simp only [Bool.or_eq_true, List.any_eq_true, bne_iff_ne]
    constructor
    · rintro ⟨hne, ⟨r, hr, hp⟩ | ⟨r, hr, hq⟩⟩
      exacts [⟨hne, r, hr, Or.inl hp⟩, ⟨hne, r, hr, Or.inr hq⟩]
    · rintro ⟨hne, r, hr, hp | hq⟩
      exacts [⟨hne, Or.inl ⟨r, hr, hp⟩⟩, ⟨hne, Or.inr ⟨r, hr, hq⟩⟩]
  · intro hc16
    have key : expSectionFor final code ≠ none ↔
        ((catRows final code).isEmpty = false ∧
         (catRows final code).any (fun r => r.itemization_label != "") = true) := by
      unfold expSectionFor
      by_cases h1 : (catRows final code).isEmpty
      · simp [h1]
      · rw [if_neg h1, if_neg hc16]
        by_cases h2 : (catRows final code).any (fun r => r.itemization_label != "") = true
        · simp [h1, h2, Bool.not_eq_true]
        · simp [Bool.not_eq_true] at h2
          simp [h1, h2, Bool.not_eq_true]
    rw [key, isEmpty_false_iff]
    simp only [List.any_eq_true, bne_iff_ne]
  · intro sec hsec
    unfold expSectionFor at hsec
    by_cases h1 : (catRows final "16").isEmpty
    · rw [if_pos h1] at hsec
      exact absurd hsec (by simp)
    · rw [if_neg h1, if_pos rfl] at hsec
      obtain rfl := Option.some.inj hsec
      rfl
  · intro hne
    unfold expSectionFor
    rw [if_neg (by simpa [isEmpty_false_iff] using hne), if_pos rfl]
    simp
  · intro sec hsec
    rcases List.mem_append.mp hsec with h | h
    · obtain ⟨cat, hcat, hsome⟩ := List.mem_filterMap.mp h
      by_cases hr : REVENUE_CODES.contains (codeOf cat)
      · rw [if_pos hr] at hsome
        rw [revSectionFor_code final _ _ hsome]
        exact Or.inl ⟨hr, hsome⟩
      · rw [if_neg hr] at hsome
        exact absurd hsome (by simp)
    · obtain ⟨cat, hcat, hsome⟩ := List.mem_filterMap.mp h
      by_cases hr : EXPENSE_CODES.contains (codeOf cat)
      · rw [if_pos hr] at hsome
        rw [expSectionFor_code final _ _ hsome]
        exact Or.inr ⟨hr, hsome⟩
      · rw [if_neg hr] at hsome
        exact absurd hsome (by simp)

/-- A labelled category-15 final row for the C6 witness. -/
def labeled15CRow : CRow :=
  { date := "3/7", description := "Maxter Group awards", amount := some (-20000),
    member_event_label := "", event_location := "", event_purpose := "",
    sponsor_name := "", itemization_label := "Awards donated to PME",
    needs_further_investigation := false, month := 3, year := 2024,
    category := "15 - Contributions, gifts, grants paid out",
    needs_review := true, potential_sponsorship := false }

/-- Witness for the amended C6: the labelled category-15 section is emitted,
and the category-16 section is emitted with no label data present. -/
theorem report_skip_C6_witness :
    expSectionFor [labeled15CRow] "15" ≠ none ∧
    expSectionFor [event16CRow] "16" ≠ none :=
  ⟨((report_skip_C6 [labeled15CRow] "15").2.1 (by decide)).mpr (by decide),
   (report_skip_C6 [event16CRow] "16").2.2.2.1 (by decide)⟩
